import Mathlib

/-!
Verification of the signal-handler layer of django-ansible-base.

This file gives a shallow embedding of:

* `ansible_base/resource_registry/signals/handlers.py` — the reverse-sync
  machinery (`_should_reverse_sync`, `_ensure_transaction`, the
  pre/post save/delete signal receivers and `sync_to_resource_server`);
* `ansible_base/activitystream/signals.py` — `_store_activitystream_entry`,
  `_store_activitystream_m2m` and `activitystream_m2m_changed`;
* `ansible_base/activitystream/models/entry.py` — `Entry.OPERATION_CHOICES`;
* `ansible_base/resource_registry/views.py` — `ResourceViewSet.get_object`.

Stateful Python is modelled by explicit state passing: a call of
`sync_to_resource_server` is a pure function from the Django settings, the
model instance, the current user and the behaviour of the HTTP client to a
record of its observable effects (the HTTP client calls it makes, the
`__exit__` calls on the transaction stored on the instance, and whether it
returns normally or raises `ValidationError`).  Truthiness of a Python
settings value is modelled by a `Bool`; a possibly-absent attribute by an
`Option`.
-/

namespace AnsibleBase

/-! ## Resource registry reverse sync (`resource_registry/signals/handlers.py`) -/

/-- Truthiness of the three Django settings consulted by `_should_reverse_sync`. -/
structure Settings where
  disable_resource_server_sync : Bool
  resource_server : Bool
  resource_service_path : Bool
deriving DecidableEq, Repr

/-- What `getattr(instance, 'resource', None)` observes on a model instance:
the attribute access can raise `Resource.DoesNotExist`, evaluate to a falsy
value (`None`), or produce a `Resource` carrying an `ansible_id` string
(the empty string standing for a falsy `ansible_id`). -/
inductive ResourceAttr where
  | raises
  | missing
  | present (ansible_id : String)
deriving DecidableEq, Repr

/-- The slice of a model instance the handlers read: its `resource` attribute
and whether `hasattr(instance, '_transaction')` holds. -/
structure ModelInstance where
  resource : ResourceAttr
  has_transaction : Bool
deriving DecidableEq, Repr

/-- The current user as seen by `sync_to_resource_server`:
`resource_ansible_id = none` models `user.resource.ansible_id` raising
`AttributeError` (e.g. `AnonymousUser`). -/
structure CurrentUser where
  resource_ansible_id : Option String
deriving DecidableEq, Repr

/-- The `action` argument of `sync_to_resource_server`. -/
inductive Action where
  | create
  | update
  | delete
deriving DecidableEq, Repr

/-- The three methods of the resource-server HTTP client. -/
inductive HttpCall where
  | create_resource
  | update_resource
  | delete_resource
deriving DecidableEq, Repr

/-- The argument shape of a `__exit__` call on `instance._transaction`:
either the live exception info from `sys.exc_info()`, or `(None, None, None)`. -/
inductive ExitArgs where
  | exc_info
  | none_args
deriving DecidableEq, Repr

/-- How a call of `sync_to_resource_server` terminates: a normal return, or a
raised `rest_framework.exceptions.ValidationError`. -/
inductive SyncResult where
  | returned
  | validation_error
deriving DecidableEq, Repr

/-- Observable effects of one call of `sync_to_resource_server`: the HTTP
client calls it issued in order, the `__exit__` calls on the instance's
transaction in order, and how the call terminated. -/
structure SyncEffects where
  http_calls : List HttpCall
  transaction_exits : List ExitArgs
  result : SyncResult
deriving DecidableEq, Repr

/-- `_should_reverse_sync`: start from `not DISABLE_RESOURCE_SERVER_SYNC`,
then walk `('RESOURCE_SERVER', 'RESOURCE_SERVICE_PATH')` and flip to `False`
(with a `break`) at the first falsy one. -/
def should_reverse_sync (s : Settings) : Bool :=
  let enabled := !s.disable_resource_server_sync
  if !s.resource_server then false
  else if !s.resource_service_path then false
  else enabled

/-- `_ensure_transaction`: when reverse sync is enabled, enter
`transaction.atomic()` and store it on the instance as `_transaction`;
otherwise return without touching the instance. -/
def ensure_transaction (s : Settings) (inst : ModelInstance) : ModelInstance :=
  if should_reverse_sync s then { inst with has_transaction := true } else inst

/-- How the `try` body of `sync_to_resource_server` ends: one of the guarded
early `return`s, normal completion, or an exception propagating to the outer
`except Exception` clause. -/
inductive TryOutcome where
  | early_return
  | ok
  | exn
deriving DecidableEq, Repr

/-- The body of the outer `try` in `sync_to_resource_server`: the guard
chain (resource present with a truthy `ansible_id`, a current user whose
`user.resource.ansible_id` exists), then the client call selected by
`action`.  `http_raises` says whether the client call raises; the call is
recorded either way, since the client method is invoked before it can
raise. -/
def sync_try_body (action : Action) (inst : ModelInstance) (user : Option CurrentUser)
    (http_raises : Bool) : List HttpCall × TryOutcome :=
  match inst.resource with
  | ResourceAttr.raises => ([], TryOutcome.early_return)
  | ResourceAttr.missing => ([], TryOutcome.early_return)
  | ResourceAttr.present aid =>
    if aid = "" then ([], TryOutcome.early_return)
    else
      match user with
      | none => ([], TryOutcome.early_return)
      | some u =>
        match u.resource_ansible_id with
        | none => ([], TryOutcome.early_return)
        | some _ =>
          let call := match action with
            | Action.create => HttpCall.create_resource
            | Action.update => HttpCall.update_resource
            | Action.delete => HttpCall.delete_resource
          ([call], if http_raises then TryOutcome.exn else TryOutcome.ok)

/-- `sync_to_resource_server(action, instance)` from
`resource_registry/signals/handlers.py`.

Control flow of the Python: bail out when `_should_reverse_sync()` is falsy;
otherwise run the guarded `try` body.  On an exception, the `except` clause
logs and — only when the instance has a `_transaction` — sets `exc = True`,
calls `instance._transaction.__exit__(*sys.exc_info())`, and raises
`ValidationError` when that `__exit__` returns falsy (Django's
`Atomic.__exit__` returns `None`, so retaining it here is faithful).  The
`finally` clause calls `instance._transaction.__exit__(None, None, None)`
exactly when the instance has a `_transaction` and `exc` is still `False`. -/
def sync_to_resource_server (s : Settings) (action : Action) (inst : ModelInstance)
    (user : Option CurrentUser) (http_raises : Bool) : SyncEffects :=
  if !(should_reverse_sync s) then ⟨[], [], SyncResult.returned⟩
  else
    match sync_try_body action inst user http_raises with
    | (calls, TryOutcome.exn) =>
      if inst.has_transaction then
        ⟨calls, [ExitArgs.exc_info], SyncResult.validation_error⟩
      else
        ⟨calls, [], SyncResult.returned⟩
    | (calls, _) =>
      if inst.has_transaction then
        ⟨calls, [ExitArgs.none_args], SyncResult.returned⟩
      else
        ⟨calls, [], SyncResult.returned⟩

/-- `sync_to_resource_server_pre_save`: a wrapper over `_ensure_transaction`. -/
def sync_to_resource_server_pre_save (s : Settings) (inst : ModelInstance) : ModelInstance :=
  ensure_transaction s inst

/-- `sync_to_resource_server_pre_delete`: a wrapper over `_ensure_transaction`. -/
def sync_to_resource_server_pre_delete (s : Settings) (inst : ModelInstance) : ModelInstance :=
  ensure_transaction s inst

/-- `sync_to_resource_server_post_save`: sync with action `'create'` when the
save created the object, `'update'` otherwise. -/
def sync_to_resource_server_post_save (s : Settings) (inst : ModelInstance) (created : Bool)
    (user : Option CurrentUser) (http_raises : Bool) : SyncEffects :=
  sync_to_resource_server s (if created then Action.create else Action.update) inst user http_raises

/-- `sync_to_resource_server_post_delete`: sync with action `'delete'`. -/
def sync_to_resource_server_post_delete (s : Settings) (inst : ModelInstance)
    (user : Option CurrentUser) (http_raises : Bool) : SyncEffects :=
  sync_to_resource_server s Action.delete inst user http_raises

/-! ## Activity stream (`activitystream/signals.py`, `activitystream/models/entry.py`) -/

/-- The dictionary returned by `diff(old, new)`: three field dictionaries,
`added_fields` and `removed_fields` mapping field names to values and
`changed_fields` mapping field names to (old value, new value) pairs. -/
structure Diff where
  added_fields : List (String × String)
  changed_fields : List (String × String × String)
  removed_fields : List (String × String)
deriving DecidableEq, Repr

/-- An activity stream `Entry` row as created by the signals module, generic
over the type `α` of model instances referenced by its generic foreign keys. -/
structure Entry (α : Type) where
  content_object : α
  operation : String
  changes : Option Diff
  related_content_object : Option α
  related_field_name : Option String
deriving DecidableEq, Repr

/-- `Entry.OPERATION_CHOICES` from `activitystream/models/entry.py`
(choice value, English label). -/
def OPERATION_CHOICES : List (String × String) :=
  [("create", "Entity created"),
   ("update", "Entity updated"),
   ("delete", "Entity deleted"),
   ("associate", "Entity was associated with another entity"),
   ("disassociate", "Entity was disassociated with another entity")]

/-- `_store_activitystream_entry(old, new, operation)`.  The diff routine is
passed in as `d` (the signals module imports it from
`ansible_base.lib.utils.models`).  `Except.error` models a raised
`ValueError`; `Except.ok none` a return with no `Entry` created;
`Except.ok (some e)` the created `Entry`. -/
def store_activitystream_entry {α : Type} (d : Option α → Option α → Diff)
    (old new : Option α) (operation : String) : Except String (Option (Entry α)) :=
  if operation ∉ (["create", "update", "delete"] : List String) then
    Except.error ("Invalid operation: " ++ operation)
  else
    let delta := d old new
    if delta.added_fields = [] ∧ delta.changed_fields = [] ∧ delta.removed_fields = [] then
      Except.ok none
    else
      match old, new with
      | none, none => Except.error "Both old and new objects are None"
      | _, some n =>
        Except.ok (some { content_object := n, operation := operation, changes := some delta,
                          related_content_object := none, related_field_name := none })
      | some o, none =>
        Except.ok (some { content_object := o, operation := operation, changes := some delta,
                          related_content_object := none, related_field_name := none })

/-- `_store_activitystream_m2m(given_instance, model, operation, pk_set,
reverse, field_name)`.  Model instances are identified by their primary keys
(`Nat`); `model_objs` lists the primary keys of the rows of `model`, so that
`model.objects.filter(pk__in=pk_set)` becomes a filter over `model_objs`.
`Except.error` models a raised `ValueError`; `Except.ok` returns the
created entries in order. -/
def store_activitystream_m2m (given_instance : Nat) (model_objs : List Nat)
    (operation : String) (pk_set : List Nat) (reverse : Bool) (field_name : String) :
    Except String (List (Entry Nat)) :=
  if operation ∉ (["associate", "disassociate"] : List String) then
    Except.error ("Invalid operation: " ++ operation)
  else
    let instances := model_objs.filter (fun pk => pk_set.contains pk)
    Except.ok (instances.map (fun inst =>
      { content_object := if reverse then inst else given_instance,
        operation := operation,
        changes := none,
        related_content_object := some (if reverse then given_instance else inst),
        related_field_name := some field_name }))

/-- One `m2m_changed` signal dispatch as `activitystream_m2m_changed` sees it.
`field_name = none` models `'field_name'` being absent from `kwargs`.
`reverse_clear_pks` is the result of the ORM query
`model.objects.filter(**{field_name: instance})` and `forward_clear_pks` the
result of `getattr(instance, field_name).all()`, the two queries the handler
issues on the `pre_clear` path. -/
structure M2MEvent where
  instance_pk : Nat
  action : String
  reverse : Bool
  model_objs : List Nat
  pk_set : List Nat
  field_name : Option String
  reverse_clear_pks : List Nat
  forward_clear_pks : List Nat
deriving DecidableEq, Repr

/-- `activitystream_m2m_changed`: return (creating nothing) unless the action
is `post_add`, `post_remove` or `pre_clear`; then require `field_name` in
`kwargs`; map `post_add` to `'associate'` and the rest to `'disassociate'`;
on `pre_clear` recompute the pk set from the relation (direction chosen by
`reverse`); finally delegate to `_store_activitystream_m2m`. -/
def activitystream_m2m_changed (e : M2MEvent) : Except String (List (Entry Nat)) :=
  if e.action ∉ (["post_add", "post_remove", "pre_clear"] : List String) then
    Except.ok []
  else
    match e.field_name with
    | none => Except.error "Missing field_name in kwargs"
    | some fn =>
      let operation := if e.action = "post_add" then "associate" else "disassociate"
      let pks :=
        if e.action = "pre_clear" then
          if e.reverse then e.reverse_clear_pks else e.forward_clear_pks
        else e.pk_set
      store_activitystream_m2m e.instance_pk e.model_objs operation pks e.reverse fn

/-- Lookup of a field value in a field dictionary, for the diff model. -/
def lookup_field (fs : List (String × String)) (k : String) : Option String :=
  (fs.find? (fun p => p.1 == k)).map Prod.snd

/-- Modelled from the spec: the field diff routine `diff(old, new)` from
`ansible_base.lib.utils.models`, whose source is not among the files here.
Per the `Entry.changes` documentation, each of `old` and `new` contributes
its dictionary of fields, a missing (`None`) object being treated "as if the
object is being compared to a model with no fields": `added_fields` are the
fields of `new` absent from `old`, `removed_fields` the fields of `old`
absent from `new`, and `changed_fields` maps fields present in both with
different values to their (old, new) value pair. -/
def diff (old new : Option (List (String × String))) : Diff :=
  let old_fields := old.getD []
  let new_fields := new.getD []
  { added_fields := new_fields.filter (fun p => (lookup_field old_fields p.1).isNone),
    changed_fields := new_fields.filterMap (fun p =>
      match lookup_field old_fields p.1 with
      | some v => if v ≠ p.2 then some (p.1, v, p.2) else none
      | none => none),
    removed_fields := old_fields.filter (fun p => (lookup_field new_fields p.1).isNone) }

/-! ## Resource view lookup (`resource_registry/views.py`) -/

/-- A row of the `Resource` table as `ResourceViewSet.get_object` uses it. -/
structure ResourceRow where
  resource_id : String
  ansible_id : String
deriving DecidableEq, Repr

/-- Python's `sep in s` for a single-character separator: membership of the
character in the string. -/
def py_contains (value : String) (sep : Char) : Bool :=
  value.toList.contains sep

/-- Python's `str.split(sep)` for a single-character separator, on the
character list: splitting the empty string gives one empty segment, and each
occurrence of the separator starts a new segment. -/
def py_split_chars (sep : Char) : List Char → List (List Char)
  | [] => [[]]
  | c :: cs =>
    let rest := py_split_chars sep cs
    if c = sep then [] :: rest
    else
      match rest with
      | [] => [[c]]
      | seg :: segs => (c :: seg) :: segs

/-- Python's `value.split(sep)` for a single-character separator. -/
def py_split (value : String) (sep : Char) : List String :=
  (py_split_chars sep value.toList).map List.asString

/-- `ResourceViewSet.get_object`: take the captured lookup value; when it
contains a colon, replace it by `value.split(":")[1]`; then
`get_object_or_404(queryset, resource_id=value)`, modelled as the first
matching row (`none` standing for the 404). -/
def get_object (queryset : List ResourceRow) (value : String) : Option ResourceRow :=
  let resource_id := if py_contains value ':' then (py_split value ':')[1]! else value
  queryset.find? (fun r => r.resource_id == resource_id)

/-- The spec's phrase for the colon case of `get_object`: "the second
':'-separated segment of the value". -/
def second_colon_segment (value : String) : String :=
  (py_split value ':')[1]!

/-! ## Theorems: reverse sync -/

/-- C7: `_should_reverse_sync` returns true iff `DISABLE_RESOURCE_SERVER_SYNC`
is falsy and both `RESOURCE_SERVER` and `RESOURCE_SERVICE_PATH` are truthy;
when it returns false, `_ensure_transaction` returns with the instance
untouched and `sync_to_resource_server` returns immediately with no HTTP
call and no transaction exit. -/
theorem should_reverse_sync_spec (s : Settings) (inst : ModelInstance) (a : Action)
    (user : Option CurrentUser) (hr : Bool) :
    (should_reverse_sync s = true ↔
      s.disable_resource_server_sync = false ∧ s.resource_server = true ∧
        s.resource_service_path = true)
    ∧ (should_reverse_sync s = false →
        ensure_transaction s inst = inst ∧
        sync_to_resource_server s a inst user hr = ⟨[], [], SyncResult.returned⟩) := by
  rcases s with ⟨d, r, p⟩
  cases d <;> cases r <;> cases p <;>
    simp [should_reverse_sync, ensure_transaction, sync_to_resource_server]

/-- Witness for C7 at a concrete disabled configuration. -/
theorem should_reverse_sync_spec_witness :
    should_reverse_sync ⟨false, false, true⟩ = false ∧
    (ensure_transaction ⟨false, false, true⟩ ⟨ResourceAttr.missing, false⟩ =
      ⟨ResourceAttr.missing, false⟩ ∧
     sync_to_resource_server ⟨false, false, true⟩ Action.create ⟨ResourceAttr.missing, false⟩
       none false = ⟨[], [], SyncResult.returned⟩) :=
  ⟨rfl,
   (should_reverse_sync_spec ⟨false, false, true⟩ ⟨ResourceAttr.missing, false⟩ Action.create
      none false).2 rfl⟩

/-- C6: the signal wiring — `pre_save` and `pre_delete` are
`_ensure_transaction` (opening a transaction on the instance when reverse
sync is enabled), `post_save` syncs with `'create'` exactly when `created`
and `'update'` otherwise, and `post_delete` syncs with `'delete'`. -/
theorem sync_signal_wiring (s : Settings) (inst : ModelInstance) (created : Bool)
    (user : Option CurrentUser) (hr : Bool) :
    sync_to_resource_server_pre_save s inst = ensure_transaction s inst
    ∧ sync_to_resource_server_pre_delete s inst = ensure_transaction s inst
    ∧ (should_reverse_sync s = true →
        (sync_to_resource_server_pre_save s inst).has_transaction = true ∧
        (sync_to_resource_server_pre_delete s inst).has_transaction = true)
    ∧ (created = true → sync_to_resource_server_post_save s inst created user hr =
        sync_to_resource_server s Action.create inst user hr)
    ∧ (created = false → sync_to_resource_server_post_save s inst created user hr =
        sync_to_resource_server s Action.update inst user hr)
    ∧ sync_to_resource_server_post_delete s inst user hr =
        sync_to_resource_server s Action.delete inst user hr := by
  refine ⟨rfl, rfl, ?_, ?_, ?_, rfl⟩
  · intro h
    constructor <;>
      simp [sync_to_resource_server_pre_save, sync_to_resource_server_pre_delete,
        ensure_transaction, h]
  · intro h
    subst h
    rfl
  · intro h
    subst h
    rfl

/-- Witness for C6 at a concrete enabled configuration and a created save. -/
theorem sync_signal_wiring_witness :
    should_reverse_sync ⟨false, true, true⟩ = true ∧
    ((sync_to_resource_server_pre_save ⟨false, true, true⟩
        ⟨ResourceAttr.missing, false⟩).has_transaction = true ∧
     (sync_to_resource_server_pre_delete ⟨false, true, true⟩
        ⟨ResourceAttr.missing, false⟩).has_transaction = true) ∧
    sync_to_resource_server_post_save ⟨false, true, true⟩ ⟨ResourceAttr.missing, false⟩ true
        none false =
      sync_to_resource_server ⟨false, true, true⟩ Action.create ⟨ResourceAttr.missing, false⟩
        none false :=
  ⟨rfl,
   (sync_signal_wiring ⟨false, true, true⟩ ⟨ResourceAttr.missing, false⟩ true none false).2.2.1 rfl,
   (sync_signal_wiring ⟨false, true, true⟩ ⟨ResourceAttr.missing, false⟩ true none false).2.2.2.1
     rfl⟩

/-- C1 counterexample: reverse sync is enabled and the instance's resource
exists with a non-empty `ansible_id`, yet `sync_to_resource_server` makes no
HTTP client call at all, because there is no current user. -/
theorem sync_no_user_makes_no_call :
    should_reverse_sync ⟨false, true, true⟩ = true
    ∧ (sync_to_resource_server ⟨false, true, true⟩ Action.create
        ⟨ResourceAttr.present "aid", true⟩ none false).http_calls = [] :=
  ⟨rfl, rfl⟩

/-- C1 (amended): whenever reverse sync is enabled, the instance's resource
exists with a non-empty `ansible_id`, and there is a current user whose
resource has an `ansible_id`, `sync_to_resource_server` makes exactly one
HTTP client call — `create_resource` for `'create'`, `update_resource` for
`'update'`, `delete_resource` for `'delete'`. -/
theorem sync_one_call_per_action (s : Settings) (a : Action) (aid : String) (tr : Bool)
    (u : CurrentUser) (uid : String) (hr : Bool)
    (hs : should_reverse_sync s = true) (haid : aid ≠ "")
    (hu : u.resource_ansible_id = some uid) :
    (sync_to_resource_server s a ⟨ResourceAttr.present aid, tr⟩ (some u) hr).http_calls.length = 1
    ∧ (a = Action.create →
        (sync_to_resource_server s a ⟨ResourceAttr.present aid, tr⟩ (some u) hr).http_calls =
          [HttpCall.create_resource])
    ∧ (a = Action.update →
        (sync_to_resource_server s a ⟨ResourceAttr.present aid, tr⟩ (some u) hr).http_calls =
          [HttpCall.update_resource])
    ∧ (a = Action.delete →
        (sync_to_resource_server s a ⟨ResourceAttr.present aid, tr⟩ (some u) hr).http_calls =
          [HttpCall.delete_resource]) := by
  cases a <;> cases hr <;> cases tr <;>
    simp [sync_to_resource_server, sync_try_body, hs, haid, hu]

/-- Witness for C1's amended theorem: a concrete enabled create sync issues
exactly the `create_resource` call. -/
theorem sync_one_call_per_action_witness :
    should_reverse_sync ⟨false, true, true⟩ = true ∧ ("x" : String) ≠ "" ∧
    (CurrentUser.mk (some "u")).resource_ansible_id = some "u" ∧
    (sync_to_resource_server ⟨false, true, true⟩ Action.create
       ⟨ResourceAttr.present "x", true⟩ (some ⟨some "u"⟩) false).http_calls =
      [HttpCall.create_resource] :=
  ⟨rfl, by decide, rfl,
   (sync_one_call_per_action ⟨false, true, true⟩ Action.create "x" true ⟨some "u"⟩ "u" false
      rfl (by decide) rfl).2.1 rfl⟩

/-- C2 counterexample: the HTTP call is made and raises, but the instance has
no `_transaction`, and `sync_to_resource_server` swallows the exception and
returns normally — no `ValidationError` is raised. -/
theorem sync_exception_no_transaction_swallowed :
    (sync_to_resource_server ⟨false, true, true⟩ Action.create
        ⟨ResourceAttr.present "x", false⟩ (some ⟨some "u"⟩) true) =
      ⟨[HttpCall.create_resource], [], SyncResult.returned⟩
    ∧ (sync_to_resource_server ⟨false, true, true⟩ Action.create
        ⟨ResourceAttr.present "x", false⟩ (some ⟨some "u"⟩) true).result ≠
      SyncResult.validation_error :=
  ⟨rfl, by decide⟩

/-- C2 (amended): when the sync reaches the HTTP call and the call raises,
then if the instance carries a `_transaction` the function raises
`ValidationError` and exits that transaction with the exception info (rolling
the local change back); with no `_transaction` the exception is logged and
swallowed and the function returns normally. -/
theorem sync_exception_rolls_back (s : Settings) (a : Action) (aid : String) (tr : Bool)
    (u : CurrentUser) (uid : String)
    (hs : should_reverse_sync s = true) (haid : aid ≠ "")
    (hu : u.resource_ansible_id = some uid) :
    (tr = true →
      (sync_to_resource_server s a ⟨ResourceAttr.present aid, tr⟩ (some u) true).result =
        SyncResult.validation_error ∧
      (sync_to_resource_server s a ⟨ResourceAttr.present aid, tr⟩
          (some u) true).transaction_exits = [ExitArgs.exc_info])
    ∧ (tr = false →
      (sync_to_resource_server s a ⟨ResourceAttr.present aid, tr⟩ (some u) true).result =
        SyncResult.returned ∧
      (sync_to_resource_server s a ⟨ResourceAttr.present aid, tr⟩
          (some u) true).transaction_exits = []) := by
  cases a <;> cases tr <;>
    simp [sync_to_resource_server, sync_try_body, hs, haid, hu]

/-- Witness for C2's amended theorem: a concrete failing update sync with a
transaction raises `ValidationError` and exits with the exception info. -/
theorem sync_exception_rolls_back_witness :
    should_reverse_sync ⟨false, true, true⟩ = true ∧ ("x" : String) ≠ "" ∧
    (CurrentUser.mk (some "u")).resource_ansible_id = some "u" ∧
    ((sync_to_resource_server ⟨false, true, true⟩ Action.update
        ⟨ResourceAttr.present "x", true⟩ (some ⟨some "u"⟩) true).result =
      SyncResult.validation_error ∧
     (sync_to_resource_server ⟨false, true, true⟩ Action.update
        ⟨ResourceAttr.present "x", true⟩ (some ⟨some "u"⟩) true).transaction_exits =
      [ExitArgs.exc_info]) :=
  ⟨rfl, by decide, rfl,
   (sync_exception_rolls_back ⟨false, true, true⟩ Action.update "x" true ⟨some "u"⟩ "u"
      rfl (by decide) rfl).1 rfl⟩

/-- C3: on every path through `sync_to_resource_server` in which the instance
carries a transaction opened by `_ensure_transaction` (so reverse sync is
enabled), `__exit__` is called exactly once — with the exception info exactly
on the path where the `try` body raised, and with `(None, None, None)` on
every other path (early returns and success). -/
theorem sync_exits_transaction_once (s : Settings) (a : Action) (inst : ModelInstance)
    (user : Option CurrentUser) (hr : Bool)
    (hs : should_reverse_sync s = true) (ht : inst.has_transaction = true) :
    (sync_to_resource_server s a inst user hr).transaction_exits.length = 1
    ∧ ((sync_try_body a inst user hr).2 = TryOutcome.exn →
        (sync_to_resource_server s a inst user hr).transaction_exits = [ExitArgs.exc_info])
    ∧ ((sync_try_body a inst user hr).2 ≠ TryOutcome.exn →
        (sync_to_resource_server s a inst user hr).transaction_exits = [ExitArgs.none_args]) := by
  rcases hb : sync_try_body a inst user hr with ⟨calls, o⟩
  cases o <;> simp [sync_to_resource_server, hs, ht, hb]

/-- Witness for C3: a concrete early-return path (no resource) with a
transaction exits once with `(None, None, None)`. -/
theorem sync_exits_transaction_once_witness :
    should_reverse_sync ⟨false, true, true⟩ = true ∧
    (ModelInstance.mk ResourceAttr.missing true).has_transaction = true ∧
    ((sync_to_resource_server ⟨false, true, true⟩ Action.delete ⟨ResourceAttr.missing, true⟩
        none false).transaction_exits.length = 1 ∧
     (sync_to_resource_server ⟨false, true, true⟩ Action.delete ⟨ResourceAttr.missing, true⟩
        none false).transaction_exits = [ExitArgs.none_args]) :=
  ⟨rfl, rfl,
   (sync_exits_transaction_once ⟨false, true, true⟩ Action.delete ⟨ResourceAttr.missing, true⟩
      none false rfl rfl).1,
   (sync_exits_transaction_once ⟨false, true, true⟩ Action.delete ⟨ResourceAttr.missing, true⟩
      none false rfl rfl).2.2 (by decide)⟩

/-! ## Theorems: activity stream -/

/-- Shape of a `_store_activitystream_entry` call that created an `Entry`:
the operation was valid and is the entry's operation, and the diff was
non-empty. -/
theorem store_entry_ok_shape {α : Type} (d : Option α → Option α → Diff)
    (old new : Option α) (op : String) (en : Entry α)
    (h : store_activitystream_entry d old new op = Except.ok (some en)) :
    en.operation = op ∧ op ∈ (["create", "update", "delete"] : List String) ∧
    ¬((d old new).added_fields = [] ∧ (d old new).changed_fields = [] ∧
      (d old new).removed_fields = []) := by
  unfold store_activitystream_entry at h
  by_cases hop : op ∈ (["create", "update", "delete"] : List String)
  · rw [if_neg (not_not_intro hop)] at h
    by_cases hd : (d old new).added_fields = [] ∧ (d old new).changed_fields = [] ∧
        (d old new).removed_fields = []
    · rw [if_pos hd] at h
      simp at h
    · rw [if_neg hd] at h
      refine ⟨?_, hop, hd⟩
      cases old <;> cases new <;> simp_all <;> subst h <;> rfl
  · rw [if_pos hop] at h
    simp at h

/-- Shape of a successful `_store_activitystream_m2m` call: the operation was
valid, one `Entry` was created per row of `model` whose pk is in `pk_set`,
and every created entry carries the operation and the field name. -/
theorem store_m2m_ok_shape (gi : Nat) (objs : List Nat) (op : String) (pks : List Nat)
    (rv : Bool) (fn : String) (l : List (Entry Nat))
    (h : store_activitystream_m2m gi objs op pks rv fn = Except.ok l) :
    op ∈ (["associate", "disassociate"] : List String) ∧
    l.length = (objs.filter (fun pk => pks.contains pk)).length ∧
    ∀ en ∈ l, en.operation = op ∧ en.related_field_name = some fn := by
  unfold store_activitystream_m2m at h
  by_cases hop : op ∈ (["associate", "disassociate"] : List String)
  · rw [if_neg (not_not_intro hop)] at h
    simp only [Except.ok.injEq] at h
    subst h
    refine ⟨hop, by simp, ?_⟩
    intro en hen
    simp only [List.mem_map] at hen
    obtain ⟨pk, -, rfl⟩ := hen
    exact ⟨rfl, rfl⟩
  · rw [if_pos hop] at h
    simp at h

/-- C4: the activity stream records exactly the five operations of
`Entry.OPERATION_CHOICES`: `_store_activitystream_entry` raises `ValueError`
for every operation other than create/update/delete,
`_store_activitystream_m2m` raises `ValueError` for every operation other
than associate/disassociate, and every `Entry` either of them creates has an
operation drawn from `OPERATION_CHOICES`. -/
theorem activitystream_operations_valid {α : Type} :
    (∀ (op : String), op ∉ (["create", "update", "delete"] : List String) →
      ∀ (d : Option α → Option α → Diff) (old new : Option α),
        store_activitystream_entry d old new op =
          Except.error ("Invalid operation: " ++ op))
    ∧ (∀ (op : String), op ∉ (["associate", "disassociate"] : List String) →
      ∀ (gi : Nat) (objs : List Nat) (pks : List Nat) (rv : Bool) (fn : String),
        store_activitystream_m2m gi objs op pks rv fn =
          Except.error ("Invalid operation: " ++ op))
    ∧ (∀ (d : Option α → Option α → Diff) (old new : Option α) (op : String) (en : Entry α),
        store_activitystream_entry d old new op = Except.ok (some en) →
        en.operation ∈ OPERATION_CHOICES.map Prod.fst)
    ∧ (∀ (gi : Nat) (objs : List Nat) (op : String) (pks : List Nat) (rv : Bool)
        (fn : String) (l : List (Entry Nat)) (en : Entry Nat),
        store_activitystream_m2m gi objs op pks rv fn = Except.ok l → en ∈ l →
        en.operation ∈ OPERATION_CHOICES.map Prod.fst) := by
  refine ⟨?_, ?_, ?_, ?_⟩
  · intro op hop d old new
    unfold store_activitystream_entry
    rw [if_pos hop]
  · intro op hop gi objs pks rv fn
    unfold store_activitystream_m2m
    rw [if_pos hop]
  · intro d old new op en h
    obtain ⟨heq, hval, -⟩ := store_entry_ok_shape d old new op en h
    rw [heq]
    simp only [OPERATION_CHOICES, List.mem_cons, List.mem_singleton] at hval ⊢
    simp at hval ⊢
    tauto
  · intro gi objs op pks rv fn l en h hen
    obtain ⟨hval, -, hall⟩ := store_m2m_ok_shape gi objs op pks rv fn l h
    rw [(hall en hen).1]
    simp [OPERATION_CHOICES] at hval ⊢
    tauto

/-- Witness for C4: a rejected operation string, and a created entry whose
operation is among the model's choices. -/
theorem activitystream_operations_valid_witness :
    ("frobnicate" : String) ∉ (["create", "update", "delete"] : List String) ∧
    store_activitystream_entry (fun _ _ => Diff.mk [] [] []) (none : Option Nat) none
        "frobnicate" = Except.error ("Invalid operation: " ++ "frobnicate") ∧
    store_activitystream_entry (fun _ _ => Diff.mk [("name", "foo")] [] [])
        (none : Option Nat) (some 0) "create" =
      Except.ok (some ⟨0, "create", some (Diff.mk [("name", "foo")] [] []), none, none⟩) ∧
    (Entry.mk 0 "create" (some (Diff.mk [("name", "foo")] [] [])) none none :
        Entry Nat).operation ∈ OPERATION_CHOICES.map Prod.fst :=
  ⟨by decide,
   (activitystream_operations_valid (α := Nat)).1 "frobnicate" (by decide)
     (fun _ _ => Diff.mk [] [] []) none none,
   rfl,
   (activitystream_operations_valid (α := Nat)).2.2.1 (fun _ _ => Diff.mk [("name", "foo")] [] [])
     none (some 0) "create" ⟨0, "create", some (Diff.mk [("name", "foo")] [] []), none, none⟩ rfl⟩

/-- C5: when `diff(old, new)` has empty added, changed and removed fields,
`_store_activitystream_entry` (with a valid operation, so the operation check
does not raise first) returns without creating any `Entry`; and an `Entry`
is created only when the diff is non-empty. -/
theorem store_entry_empty_diff_no_entry {α : Type} (d : Option α → Option α → Diff)
    (old new : Option α) (op : String) :
    (op ∈ (["create", "update", "delete"] : List String) →
      (d old new).added_fields = [] → (d old new).changed_fields = [] →
      (d old new).removed_fields = [] →
      store_activitystream_entry d old new op = Except.ok none)
    ∧ (∀ en : Entry α, store_activitystream_entry d old new op = Except.ok (some en) →
      ¬((d old new).added_fields = [] ∧ (d old new).changed_fields = [] ∧
        (d old new).removed_fields = [])) := by
  constructor
  · intro hop h1 h2 h3
    unfold store_activitystream_entry
    rw [if_neg (not_not_intro hop), if_pos ⟨h1, h2, h3⟩]
  · intro en h
    exact (store_entry_ok_shape d old new op en h).2.2

/-- Witness for C5: an update whose diff is empty stores nothing. -/
theorem store_entry_empty_diff_no_entry_witness :
    ("update" : String) ∈ (["create", "update", "delete"] : List String) ∧
    store_activitystream_entry (fun _ _ => Diff.mk [] [] []) (some 1) (some 1) "update" =
      Except.ok none :=
  ⟨by decide,
   (store_entry_empty_diff_no_entry (fun _ _ => Diff.mk [] [] []) (some 1) (some 1)
      "update").1 (by decide) rfl rfl rfl⟩

/-- C9 counterexample: with `old = None`, `new = None` and the valid operation
`'create'`, `_store_activitystream_entry` does not raise `ValueError`:
`diff(None, None)` is empty, so the empty-diff early return fires before the
None/None check and the function returns with no `Entry` created. -/
theorem store_entry_none_none_returns :
    store_activitystream_entry diff (none : Option (List (String × String))) none "create" =
      Except.ok none := rfl

/-- C9 (amended): for every valid operation, `_store_activitystream_entry`
with `old = None` and `new = None` returns without raising and without
creating an `Entry`: `diff(None, None)` has no added, changed or removed
fields, so the empty-diff early return fires and the
"Both old and new objects are None" `ValueError` branch is not reached. -/
theorem store_entry_none_none (op : String)
    (hop : op ∈ (["create", "update", "delete"] : List String)) :
    store_activitystream_entry diff (none : Option (List (String × String))) none op =
      Except.ok none := by
  unfold store_activitystream_entry
  rw [if_neg (not_not_intro hop)]
  rfl

/-- Witness for C9's amended theorem at the operation `'delete'`. -/
theorem store_entry_none_none_witness :
    ("delete" : String) ∈ (["create", "update", "delete"] : List String) ∧
    store_activitystream_entry diff (none : Option (List (String × String))) none "delete" =
      Except.ok none :=
  ⟨by decide, store_entry_none_none "delete" (by decide)⟩

/-- C8: `activitystream_m2m_changed` creates one `Entry` per affected primary
key — operation `'associate'` for `post_add`, `'disassociate'` for
`post_remove` and for `pre_clear` (whose pk set is recomputed from the
relation, in the direction given by `reverse`); for every other action it
creates no entries and returns; and for a handled action it raises
`ValueError` when `field_name` is absent from `kwargs`. -/
theorem m2m_changed_spec (e : M2MEvent) (fn : String) :
    (e.action ∉ (["post_add", "post_remove", "pre_clear"] : List String) →
      activitystream_m2m_changed e = Except.ok [])
    ∧ (e.action ∈ (["post_add", "post_remove", "pre_clear"] : List String) →
      e.field_name = none →
      activitystream_m2m_changed e = Except.error "Missing field_name in kwargs")
    ∧ (e.field_name = some fn → e.action = "post_add" →
      activitystream_m2m_changed e =
        Except.ok ((e.model_objs.filter (fun pk => e.pk_set.contains pk)).map (fun pk =>
          { content_object := if e.reverse then pk else e.instance_pk,
            operation := "associate",
            changes := none,
            related_content_object := some (if e.reverse then e.instance_pk else pk),
            related_field_name := some fn })))
    ∧ (e.field_name = some fn → e.action = "post_remove" →
      activitystream_m2m_changed e =
        Except.ok ((e.model_objs.filter (fun pk => e.pk_set.contains pk)).map (fun pk =>
          { content_object := if e.reverse then pk else e.instance_pk,
            operation := "disassociate",
            changes := none,
            related_content_object := some (if e.reverse then e.instance_pk else pk),
            related_field_name := some fn })))
    ∧ (e.field_name = some fn → e.action = "pre_clear" →
      activitystream_m2m_changed e =
        Except.ok ((e.model_objs.filter (fun pk =>
            (if e.reverse then e.reverse_clear_pks else e.forward_clear_pks).contains pk)).map
          (fun pk =>
            { content_object := if e.reverse then pk else e.instance_pk,
              operation := "disassociate",
              changes := none,
              related_content_object := some (if e.reverse then e.instance_pk else pk),
              related_field_name := some fn }))) := by
  refine ⟨?_, ?_, ?_, ?_, ?_⟩
  · intro ha
    unfold activitystream_m2m_changed
    rw [if_pos ha]
  · intro ha hf
    unfold activitystream_m2m_changed
    rw [if_neg (not_not_intro ha), hf]
  · intro hf ha
    unfold activitystream_m2m_changed store_activitystream_m2m
    rw [hf, ha]
    cases e.reverse <;> simp
  · intro hf ha
    unfold activitystream_m2m_changed store_activitystream_m2m
    rw [hf, ha]
    cases e.reverse <;> simp
  · intro hf ha
    unfold activitystream_m2m_changed store_activitystream_m2m
    rw [hf, ha]
    cases e.reverse <;> simp

/-- Witness for C8: a concrete `post_add` event over rows 1..3 with pk set
containing 2, 3 and a stale 9 creates exactly the two associate entries. -/
theorem m2m_changed_spec_witness :
    (M2MEvent.mk 7 "post_add" false [1, 2, 3] [2, 3, 9] (some "animals") [] []).field_name =
      some "animals" ∧
    (M2MEvent.mk 7 "post_add" false [1, 2, 3] [2, 3, 9] (some "animals") [] []).action =
      "post_add" ∧
    activitystream_m2m_changed
        (M2MEvent.mk 7 "post_add" false [1, 2, 3] [2, 3, 9] (some "animals") [] []) =
      Except.ok [⟨7, "associate", none, some 2, some "animals"⟩,
                 ⟨7, "associate", none, some 3, some "animals"⟩] ∧
    activitystream_m2m_changed
        (M2MEvent.mk 7 "post_add" false [1, 2, 3] [2, 3, 9] (some "animals") [] []) =
      Except.ok
        (((M2MEvent.mk 7 "post_add" false [1, 2, 3] [2, 3, 9] (some "animals") [] []).model_objs.filter
            (fun pk =>
              (M2MEvent.mk 7 "post_add" false [1, 2, 3] [2, 3, 9] (some "animals") [] []).pk_set.contains
                pk)).map (fun pk =>
          { content_object := if false = true then pk else 7,
            operation := "associate",
            changes := none,
            related_content_object := some (if false = true then 7 else pk),
            related_field_name := some "animals" })) := by
  refine ⟨rfl, rfl, rfl, ?_⟩
  have h := (m2m_changed_spec
    (M2MEvent.mk 7 "post_add" false [1, 2, 3] [2, 3, 9] (some "animals") [] [])
    "animals").2.2.1 rfl rfl
  simpa using h

/-! ## Theorems: resource view lookup -/

/-- C10: `ResourceViewSet.get_object` looks the resource up by `resource_id`
equal to the second `':'`-separated segment of the lookup value when the
value contains a colon, and by the whole value otherwise. -/
theorem get_object_lookup (qs : List ResourceRow) (value : String) :
    (py_contains value ':' = true →
      get_object qs value = qs.find? (fun r => r.resource_id == second_colon_segment value))
    ∧ (py_contains value ':' = false →
      get_object qs value = qs.find? (fun r => r.resource_id == value)) := by
  constructor <;> intro h <;> simp [get_object, second_colon_segment, h]

/-- Witness for C10: `'prefix:id'` resolves to the resource whose
`resource_id` is `'id'`. -/
theorem get_object_lookup_witness :
    py_contains "prefix:id" ':' = true ∧
    second_colon_segment "prefix:id" = "id" ∧
    get_object [ResourceRow.mk "id" "a"] "prefix:id" =
      List.find? (fun r => r.resource_id == second_colon_segment "prefix:id")
        [ResourceRow.mk "id" "a"] ∧
    get_object [ResourceRow.mk "id" "a"] "prefix:id" = some (ResourceRow.mk "id" "a") :=
  ⟨rfl, rfl, (get_object_lookup [ResourceRow.mk "id" "a"] "prefix:id").1 rfl, rfl⟩

end AnsibleBase
